import Mathlib

/-!
Shallow embedding of src/src-tauri/src/main.rs (AI-Reader-V2 launcher).

The program is a Tauri shell: it selects a backend port (fixed 8000 in
debug builds, an OS-assigned ephemeral port in release builds), stores it
in a mutex-guarded managed state, exposes `get_backend_port` to the
frontend, spawns the backend sidecar with `--port <value>` in release
builds, and fires an asynchronous update check in release builds.

External effects (the OS bind call, the sidecar creation/spawn, the
update-service response) are inputs in an `Env` record; the startup
sequence is a function from `Env` to an outcome carrying the managed
state and a trace of observable events.
-/

/-- Information carried by a successful update-service response when an
update is available: mirrors the `update.version` and
`update.current_version` fields used by `check_for_updates`. -/
structure UpdateInfo where
  version : String
  current_version : String
deriving DecidableEq, Repr

/-- External inputs to the launcher: the build mode (`cfg!(debug_assertions)`),
the outcome of binding `127.0.0.1:0` (the OS-assigned port, or `none` when
the bind call fails), whether the sidecar command can be created and
spawned, and the update-service response seen by `updater.check().await`
(an error string, no update, or an available update). -/
structure Env where
  debug : Bool
  bindResult : Option Nat
  sidecarCreateOk : Bool
  spawnOk : Bool
  updateResult : Except String (Option UpdateInfo)
deriving Repr

/-- Observable events of a launcher run. -/
inductive Event where
  | bindAttempt : Event
  | bound : Nat → Event
  | socketClosed : Nat → Event
  | spawnSidecar : List String → Event
  | updateCheck : Event
deriving DecidableEq, Repr

/-- The mutex-guarded state `BackendPort(Mutex<u16>)`: a value plus the
poison flag that `lock().unwrap()` inspects. -/
structure PortMutex where
  value : Nat
  poisoned : Bool
deriving DecidableEq, Repr

/-- `Mutex::new(port)`: a fresh, unpoisoned mutex holding the port. -/
def PortMutex.new (v : Nat) : PortMutex :=
  { value := v, poisoned := false }

/-- `get_backend_port`: locks the mutex and returns the stored value;
`unwrap` on a poisoned lock panics, modelled as `none`. -/
def get_backend_port (st : PortMutex) : Option Nat :=
  if st.poisoned then none else some st.value

/-- `find_available_port`: binds `127.0.0.1:0`, reads back the assigned
port, and drops (closes) the listener on return.  A failed bind hits
`.expect("无法绑定端口")`, which aborts the process. -/
def find_available_port (env : Env) : Except String Nat × List Event :=
  match env.bindResult with
  | none => (Except.error "无法绑定端口", [Event.bindAttempt])
  | some p =>
      (Except.ok p, [Event.bindAttempt, Event.bound p, Event.socketClosed p])

/-- The `let port = if cfg!(debug_assertions) ... ` selection in `main`. -/
def choosePort (env : Env) : Except String Nat × List Event :=
  if env.debug then (Except.ok 8000, []) else find_available_port env

/-- The `setup` closure of `main`.  In debug builds both conditional
blocks are compiled out.  In release builds it creates the sidecar
command (`.expect("无法创建 sidecar 命令")`), attaches
`["--port", port.to_string()]`, and spawns it
(`.expect("无法启动后端 sidecar")`).  The closure captures the local
`port` and never touches the managed mutex, which it returns unchanged. -/
def setupClosure (env : Env) (port : Nat) (st : PortMutex) :
    Except String (PortMutex × List Event) :=
  if env.debug then Except.ok (st, [])
  else if env.sidecarCreateOk = false then Except.error "无法创建 sidecar 命令"
  else if env.spawnOk = false then Except.error "无法启动后端 sidecar"
  else Except.ok (st, [Event.spawnSidecar ["--port", toString port]])

/-- `check_for_updates`: obtains the updater and awaits `check()`; errors
propagate via `?`.  When an update is available it logs
`发现新版本: <version> (当前: <current_version>)`.  Returns the result
paired with the diagnostic lines it printed. -/
def check_for_updates (res : Except String (Option UpdateInfo)) :
    Except String Unit × List String :=
  match res with
  | Except.error e => (Except.error e, [])
  | Except.ok none => (Except.ok (), [])
  | Except.ok (some u) =>
      (Except.ok (),
        ["发现新版本: " ++ u.version ++ " (当前: " ++ u.current_version ++ ")"])

/-- The fire-and-forget task spawned in the release-build setup block:
it performs the outbound update check and, when `check_for_updates`
returns an error, logs `更新检查失败: <e>` and otherwise ignores it. -/
def updateTask (env : Env) : List Event × List String :=
  if env.debug then ([], [])
  else
    let r := check_for_updates env.updateResult
    ([Event.updateCheck],
      r.2 ++ (match r.1 with
              | Except.error e => ["更新检查失败: " ++ e]
              | Except.ok _ => []))

/-- Result of a startup that reached `run`: the selected port, the managed
mutex right after `.manage(...)`, the mutex after the `setup` closure ran,
the startup events, and the events and diagnostics of the async update
task. -/
structure AppRun where
  port : Nat
  stateAtManage : PortMutex
  stateAfterSetup : PortMutex
  mainTrace : List Event
  updateTrace : List Event
  updateLogs : List String
deriving DecidableEq, Repr

/-- Outcome of the startup sequence: either the app is running, or an
`.expect` aborted the process with a diagnostic message. -/
inductive Startup where
  | ok : AppRun → Startup
  | fatal : String → List Event → Startup
deriving DecidableEq, Repr

/-- The startup sequence of `main`: select the port, manage
`BackendPort(Mutex::new(port))`, run the setup closure (sidecar spawn in
release builds), and let the spawned update task run. -/
def mainStartup (env : Env) : Startup :=
  match choosePort env with
  | (Except.error msg, tr) => Startup.fatal msg tr
  | (Except.ok port, tr0) =>
      let st := PortMutex.new port
      match setupClosure env port st with
      | Except.error msg => Startup.fatal msg tr0
      | Except.ok (st2, tr1) =>
          let u := updateTask env
          Startup.ok
            { port := port, stateAtManage := st, stateAfterSetup := st2,
              mainTrace := tr0 ++ tr1, updateTrace := u.1, updateLogs := u.2 }

/-- All events of a startup outcome, in program order. -/
def Startup.events : Startup → List Event
  | Startup.ok r => r.mainTrace ++ r.updateTrace
  | Startup.fatal _ tr => tr

/-- Whether an event is a sidecar spawn. -/
def Event.isSpawn : Event → Bool
  | Event.spawnSidecar _ => true
  | _ => false

/-- Number of update-check calls recorded in an event list. -/
def countUpdateChecks (l : List Event) : Nat :=
  (l.filter (fun e => e = Event.updateCheck)).length

/-- Number of bind attempts recorded in an event list. -/
def countBindAttempts (l : List Event) : Nat :=
  (l.filter (fun e => e = Event.bindAttempt)).length

/-- A development-mode environment. -/
def envDev : Env :=
  { debug := true, bindResult := none, sidecarCreateOk := true,
    spawnOk := true, updateResult := Except.ok none }

/-- A release-mode environment in which every external step succeeds. -/
def envRel : Env :=
  { debug := false, bindResult := some 49200, sidecarCreateOk := true,
    spawnOk := true, updateResult := Except.ok none }

/-- A release-mode environment whose update check fails. -/
def envRelUpdErr : Env :=
  { debug := false, bindResult := some 49200, sidecarCreateOk := true,
    spawnOk := true, updateResult := Except.error "dns error" }

/-- A release-mode environment whose ephemeral bind fails. -/
def envRelNoBind : Env :=
  { debug := false, bindResult := none, sidecarCreateOk := true,
    spawnOk := true, updateResult := Except.ok none }

/-- C1: for every environment in which startup succeeds, the port query
returns the same 16-bit value at the state taken right after the port is
stored (before the backend launch) and at the state after the setup
closure (after the backend launch); the stored value is the selected port
and is never modified. -/
theorem get_backend_port_write_once (env : Env) (r : AppRun)
    (h16 : ∀ p, env.bindResult = some p → p < 65536)
    (h : mainStartup env = Startup.ok r) :
    get_backend_port r.stateAtManage = get_backend_port r.stateAfterSetup ∧
    get_backend_port r.stateAtManage = some r.port ∧ r.port < 65536 := by
  obtain ⟨d, b, c, s, u⟩ := env
  cases d <;> cases b <;> cases c <;> cases s <;>
    simp_all [mainStartup, choosePort, find_available_port, setupClosure,
      updateTask, PortMutex.new, get_backend_port] <;>
    try exact h16 rfl
  all_goals (cases h; simp_all [get_backend_port])

theorem get_backend_port_write_once_witness :
    (∀ p, envRel.bindResult = some p → p < 65536) ∧
    (get_backend_port (AppRun.stateAtManage
        { port := 49200, stateAtManage := PortMutex.new 49200,
          stateAfterSetup := PortMutex.new 49200,
          mainTrace :=
            [Event.bindAttempt, Event.bound 49200, Event.socketClosed 49200,
             Event.spawnSidecar ["--port", "49200"]],
          updateTrace := [Event.updateCheck], updateLogs := [] }) =
      some 49200) :=
  ⟨fun p hp => by simp [envRel] at hp; omega,
   ((get_backend_port_write_once envRel
      { port := 49200, stateAtManage := PortMutex.new 49200,
        stateAfterSetup := PortMutex.new 49200,
        mainTrace :=
          [Event.bindAttempt, Event.bound 49200, Event.socketClosed 49200,
           Event.spawnSidecar ["--port", "49200"]],
        updateTrace := [Event.updateCheck], updateLogs := [] }
      (fun p hp => by simp [envRel] at hp; omega) (by decide)).2.1)⟩

/-- C2: in the development configuration, startup always succeeds, the
port query reports exactly 8000, and no bind of an ephemeral port is ever
attempted. -/
theorem dev_port_fixed_8000 (env : Env) (hdev : env.debug = true) :
    ∃ r, mainStartup env = Startup.ok r ∧ r.port = 8000 ∧
      get_backend_port r.stateAtManage = some 8000 ∧
      get_backend_port r.stateAfterSetup = some 8000 ∧
      Event.bindAttempt ∉ Startup.events (mainStartup env) ∧
      (∀ p, Event.bound p ∉ Startup.events (mainStartup env)) := by
  obtain ⟨d, b, c, s, u⟩ := env
  subst hdev
  refine ⟨_, rfl, ?_⟩
  simp [mainStartup, choosePort, setupClosure, updateTask, PortMutex.new,
    get_backend_port, Startup.events]

theorem dev_port_fixed_8000_witness :
    envDev.debug = true ∧
    ∃ r, mainStartup envDev = Startup.ok r ∧ r.port = 8000 ∧
      get_backend_port r.stateAtManage = some 8000 ∧
      get_backend_port r.stateAfterSetup = some 8000 ∧
      Event.bindAttempt ∉ Startup.events (mainStartup envDev) ∧
      (∀ p, Event.bound p ∉ Startup.events (mainStartup envDev)) :=
  ⟨rfl, dev_port_fixed_8000 envDev rfl⟩

/-- C9: whenever startup succeeds, the port mutex is unpoisoned at every
observed state, so the `unwrap` in the port query never panics and every
call returns the stored value. -/
theorem lock_unwrap_never_panics (env : Env) (r : AppRun)
    (h : mainStartup env = Startup.ok r) :
    r.stateAtManage.poisoned = false ∧ r.stateAfterSetup.poisoned = false ∧
    get_backend_port r.stateAtManage = some r.stateAtManage.value ∧
    get_backend_port r.stateAfterSetup = some r.stateAfterSetup.value := by
  obtain ⟨d, b, c, s, u⟩ := env
  cases d <;> cases b <;> cases c <;> cases s <;>
    simp_all [mainStartup, choosePort, find_available_port, setupClosure,
      updateTask, PortMutex.new] <;>
  · cases h
    simp [get_backend_port]

theorem lock_unwrap_never_panics_witness :
    (PortMutex.new 8000).poisoned = false ∧
    get_backend_port (PortMutex.new 8000) = some (PortMutex.new 8000).value :=
  ⟨(lock_unwrap_never_panics envDev
      { port := 8000, stateAtManage := PortMutex.new 8000,
        stateAfterSetup := PortMutex.new 8000, mainTrace := [],
        updateTrace := [], updateLogs := [] } (by decide)).1,
   (lock_unwrap_never_panics envDev
      { port := 8000, stateAtManage := PortMutex.new 8000,
        stateAfterSetup := PortMutex.new 8000, mainTrace := [],
        updateTrace := [], updateLogs := [] } (by decide)).2.2.1⟩

/-- C10: when the update check succeeds with no update available,
`check_for_updates` returns success and emits no diagnostic line. -/
theorem no_update_no_log :
    check_for_updates (Except.ok none) = (Except.ok (), []) := rfl

/-- C7: when an update is available, `check_for_updates` succeeds and
logs exactly one diagnostic line, which contains both the available
version and the current version as literal substrings. -/
theorem update_available_log_versions (u : UpdateInfo) :
    (check_for_updates (Except.ok (some u))).1 = Except.ok () ∧
    ∃ msg, (check_for_updates (Except.ok (some u))).2 = [msg] ∧
      (∃ a b, msg = a ++ u.version ++ b) ∧
      (∃ c d, msg = c ++ u.current_version ++ d) := by
  refine ⟨rfl, "发现新版本: " ++ u.version ++ " (当前: " ++
      u.current_version ++ ")", rfl, ?_, ?_⟩
  · exact ⟨"发现新版本: ", " (当前: " ++ u.current_version ++ ")", by
      simp [String.append_assoc]⟩
  · exact ⟨"发现新版本: " ++ u.version ++ " (当前: ", ")", rfl⟩

/-- C3: in the release configuration, when the OS assigns an ephemeral
port (in the IANA dynamic range) and the sidecar starts, the reported
port is that ephemeral port, and the listening socket used to discover it
is closed strictly before the backend child process is spawned. -/
theorem release_port_socket_closed_before_spawn (env : Env) (p : Nat)
    (hdev : env.debug = false) (hbind : env.bindResult = some p)
    (hlo : 49152 ≤ p) (hhi : p ≤ 65535)
    (hc : env.sidecarCreateOk = true) (hs : env.spawnOk = true) :
    ∃ r, mainStartup env = Startup.ok r ∧
      49152 ≤ r.port ∧ r.port ≤ 65535 ∧
      ∃ i j : Nat, i < j ∧
        (Startup.events (mainStartup env))[i]? =
          some (Event.socketClosed r.port) ∧
        ∃ args, (Startup.events (mainStartup env))[j]? =
          some (Event.spawnSidecar args) := by
  obtain ⟨d, b, c, s, u⟩ := env
  simp only at hdev hbind hc hs
  subst hdev; subst hbind; subst hc; subst hs
  refine ⟨_, rfl, hlo, hhi, 2, 3, by omega, rfl, ["--port", toString p], rfl⟩

theorem release_port_socket_closed_before_spawn_witness :
    (envRel.debug = false ∧ envRel.bindResult = some 49200 ∧
     49152 ≤ 49200 ∧ 49200 ≤ 65535 ∧
     envRel.sidecarCreateOk = true ∧ envRel.spawnOk = true) ∧
    ∃ r, mainStartup envRel = Startup.ok r ∧
      49152 ≤ r.port ∧ r.port ≤ 65535 ∧
      ∃ i j : Nat, i < j ∧
        (Startup.events (mainStartup envRel))[i]? =
          some (Event.socketClosed r.port) ∧
        ∃ args, (Startup.events (mainStartup envRel))[j]? =
          some (Event.spawnSidecar args) :=
  ⟨⟨rfl, rfl, by decide, by decide, rfl, rfl⟩,
   release_port_socket_closed_before_spawn envRel 49200 rfl rfl (by decide)
     (by decide) rfl rfl⟩

/-- C4: in the release configuration, a successful startup spawns the
sidecar exactly once, with argument list exactly
`["--port", <decimal port>]`, where the decimal port is the rendering of
the same value the port query returns. -/
theorem sidecar_single_port_flag (env : Env) (r : AppRun)
    (hdev : env.debug = false) (h : mainStartup env = Startup.ok r) :
    (Startup.events (mainStartup env)).filter Event.isSpawn =
      [Event.spawnSidecar ["--port", toString r.port]] ∧
    get_backend_port r.stateAtManage = some r.port := by
  obtain ⟨d, b, c, s, u⟩ := env
  subst hdev
  cases b <;> cases c <;> cases s <;>
    simp_all [mainStartup, choosePort, find_available_port, setupClosure,
      updateTask, PortMutex.new]
  all_goals
    (cases h;
     simp [Startup.events, mainStartup, choosePort, find_available_port,
       setupClosure, updateTask, Event.isSpawn, get_backend_port,
       PortMutex.new])

theorem sidecar_single_port_flag_witness :
    envRel.debug = false ∧
    (Startup.events (mainStartup envRel)).filter Event.isSpawn =
      [Event.spawnSidecar ["--port", "49200"]] :=
  ⟨rfl,
   (sidecar_single_port_flag envRel
     { port := 49200, stateAtManage := PortMutex.new 49200,
       stateAfterSetup := PortMutex.new 49200,
       mainTrace :=
         [Event.bindAttempt, Event.bound 49200, Event.socketClosed 49200,
          Event.spawnSidecar ["--port", "49200"]],
       updateTrace := [Event.updateCheck], updateLogs := [] }
     rfl (by decide)).1⟩

/-- C5: in the release configuration, if the ephemeral bind fails, or the
sidecar command cannot be created, or it cannot be spawned, startup ends
in a fatal abort carrying one of the three diagnostic messages; the trace
shows at most one bind attempt (no retry), no spawned sidecar, and no
update check (no continued execution). -/
theorem release_failures_fatal (env : Env) (hdev : env.debug = false)
    (hfail : env.bindResult = none ∨ env.sidecarCreateOk = false ∨
      env.spawnOk = false) :
    ∃ msg tr, mainStartup env = Startup.fatal msg tr ∧
      (msg = "无法绑定端口" ∨ msg = "无法创建 sidecar 命令" ∨
        msg = "无法启动后端 sidecar") ∧
      countBindAttempts tr ≤ 1 ∧
      (∀ args, Event.spawnSidecar args ∉ tr) ∧
      Event.updateCheck ∉ tr := by
  obtain ⟨d, b, c, s, u⟩ := env
  subst hdev
  cases b <;> cases c <;> cases s <;>
    simp_all [mainStartup, choosePort, find_available_port, setupClosure] <;>
    exact ⟨_, _, ⟨rfl, rfl⟩, by simp, by simp [countBindAttempts], by simp,
      by simp⟩

theorem release_failures_fatal_witness :
    (envRelNoBind.debug = false ∧ envRelNoBind.bindResult = none) ∧
    ∃ msg tr, mainStartup envRelNoBind = Startup.fatal msg tr ∧
      (msg = "无法绑定端口" ∨ msg = "无法创建 sidecar 命令" ∨
        msg = "无法启动后端 sidecar") ∧
      countBindAttempts tr ≤ 1 ∧
      (∀ args, Event.spawnSidecar args ∉ tr) ∧
      Event.updateCheck ∉ tr :=
  ⟨⟨rfl, rfl⟩, release_failures_fatal envRelNoBind rfl (Or.inl rfl)⟩

/-- C6: in the release configuration, when the update check returns an
error, startup still succeeds; the async task logs a single diagnostic
that contains the error as a literal substring, and the port, the managed
state, and the startup trace are identical to a run whose update check
returned no update. -/
theorem update_error_nonfatal (env : Env) (p : Nat) (e : String)
    (hdev : env.debug = false) (hbind : env.bindResult = some p)
    (hc : env.sidecarCreateOk = true) (hs : env.spawnOk = true)
    (herr : env.updateResult = Except.error e) :
    ∃ r r2, mainStartup env = Startup.ok r ∧
      mainStartup { env with updateResult := Except.ok none } =
        Startup.ok r2 ∧
      r.updateLogs = ["更新检查失败: " ++ e] ∧
      (∃ a b, "更新检查失败: " ++ e = a ++ e ++ b) ∧
      r.port = r2.port ∧ r.stateAtManage = r2.stateAtManage ∧
      r.stateAfterSetup = r2.stateAfterSetup ∧
      r.mainTrace = r2.mainTrace ∧ r.updateTrace = r2.updateTrace := by
  obtain ⟨d, b, c, s, u⟩ := env
  simp only at hdev hbind hc hs herr
  subst hdev; subst hbind; subst hc; subst hs; subst herr
  refine ⟨_, _, rfl, rfl, ?_, ⟨"更新检查失败: ", "", by simp⟩,
    rfl, rfl, rfl, rfl, rfl⟩
  simp [mainStartup, choosePort, find_available_port, setupClosure,
    updateTask, check_for_updates]

theorem update_error_nonfatal_witness :
    (envRelUpdErr.debug = false ∧
     envRelUpdErr.bindResult = some 49200 ∧
     envRelUpdErr.sidecarCreateOk = true ∧ envRelUpdErr.spawnOk = true ∧
     envRelUpdErr.updateResult = Except.error "dns error") ∧
    ∃ r r2, mainStartup envRelUpdErr = Startup.ok r ∧
      mainStartup { envRelUpdErr with updateResult := Except.ok none } =
        Startup.ok r2 ∧
      r.updateLogs = ["更新检查失败: " ++ "dns error"] ∧
      (∃ a b, "更新检查失败: " ++ "dns error" = a ++ "dns error" ++ b) ∧
      r.port = r2.port ∧ r.stateAtManage = r2.stateAtManage ∧
      r.stateAfterSetup = r2.stateAfterSetup ∧
      r.mainTrace = r2.mainTrace ∧ r.updateTrace = r2.updateTrace :=
  ⟨⟨rfl, rfl, rfl, rfl, rfl⟩,
   update_error_nonfatal envRelUpdErr 49200 "dns error" rfl rfl rfl rfl rfl⟩

/-- C8: for every environment, the run performs at most one outbound
update check, and in the development configuration it performs none. -/
theorem update_check_at_most_once (env : Env) :
    countUpdateChecks (Startup.events (mainStartup env)) ≤ 1 ∧
    (env.debug = true →
      countUpdateChecks (Startup.events (mainStartup env)) = 0) := by
  obtain ⟨d, b, c, s, u⟩ := env
  cases d <;> cases b <;> cases c <;> cases s <;>
    simp [mainStartup, choosePort, find_available_port, setupClosure,
      updateTask, Startup.events, countUpdateChecks]

theorem update_check_at_most_once_witness :
    countUpdateChecks (Startup.events (mainStartup envDev)) ≤ 1 ∧
    (envDev.debug = true →
      countUpdateChecks (Startup.events (mainStartup envDev)) = 0) :=
  update_check_at_most_once envDev
